import Mathlib

/-!
Verification of the `_CRuntime` image-inspection core and its incidental
utilities (`Ptrauth.c`, `shell.c`), shallowly embedded from the C sources.

Addresses are modelled as natural numbers; a C `size_t` result is a `Nat`.
Code paths selected by the platform `#if` switches become separate Lean
definitions, one per variant (Mach-O, ELF, COFF).
-/

/-- A `(base_address, byte_length)`-style pair handed to the registration
callback `registerProtocolConformances(const char *section, size_t size)`.
For the COFF variant the second component is in pointer-difference units,
exactly as the C subtraction produces it. -/
structure Delivery where
  base : Nat
  len : Nat
deriving Repr, DecidableEq

/-- Result of executing a piece of C code: either a defined value or
undefined behavior (`ub`), e.g. calling through a null function
reference or dereferencing a null pointer. -/
inductive CResult (α : Type) where
  | ok : α → CResult α
  | ub : CResult α
deriving Repr, DecidableEq

/-- C pointer subtraction `a - b` between two pointers to elements of
byte size `esz`: the byte difference divided by the element size.
In `ImageInspection.c` it is applied with `esz = 1` (ELF: the boundary
symbols are declared `const char`) and with `esz = sizeof(uintptr_t)`
(COFF: the sentinels are `uintptr_t` objects, so `&__stop - &__start`
is a `uintptr_t*` difference, not a byte count). -/
def ptrSub (esz a b : Nat) : Nat := (a - b) / esz

/-- ELF `loadImages`: `SWIFT_REGISTER_SECTION(swift5_protocol_conformances,
registerProtocolConformances)` expands to
`registerProtocolConformances(&__start_name, &__stop_name - &__start_name)`
where the boundary symbols have type `const char`, so the length is the
byte difference of the two linker symbols. -/
def elf_loadImages (start stop : Nat) : Delivery :=
  ⟨start, ptrSub 1 stop start⟩

/-- COFF `loadImages`: `SWIFT_REGISTER_SECTION(sw5prtc,
registerProtocolConformances)` expands to
`registerProtocolConformances((const char *)&__start_name,
&__stop_name - &__start_name)`; the sentinels `__start_sw5prtc` and
`__stop_sw5prtc` are `uintptr_t` objects, so the subtraction is a
`uintptr_t*` pointer difference: byte distance divided by
`w = sizeof(uintptr_t)`. -/
def coff_loadImages (w start stop : Nat) : Delivery :=
  ⟨start, ptrSub w stop start⟩

/-- ELF linker layout for a named section with C-identifier name
(modelled from the spec: the linker places the synthetic `__start_...`
symbol immediately before, and `__stop_...` immediately after, all real
contributions of every translation unit; the section is declared with
`__aligned__(1)` boundary symbols and an explicitly empty asm section,
so no padding separates them from the contributions). `startAddr` is the
address of `__start_...`; `contribBytes` is the total size in bytes of
the real contributions. -/
structure ElfSectionLayout where
  startAddr : Nat
  contribBytes : Nat
deriving Repr, DecidableEq

/-- Address of the ELF `__stop_...` symbol: one past the last contributed
byte. -/
def ElfSectionLayout.stopAddr (L : ElfSectionLayout) : Nat :=
  L.startAddr + L.contribBytes

/-- ELF `loadImages` run on a laid-out section. -/
def elf_loadImagesOn (L : ElfSectionLayout) : Delivery :=
  elf_loadImages L.startAddr L.stopAddr

/-- COFF section layout from `DECLARE_SWIFT_SECTION(sw5prtc)` in
`ImageInspection.h`: `__start_sw5prtc` is a zero-initialized `uintptr_t`
allocated in section `.sw5prtc$A` with `align(1)`, `__stop_sw5prtc` one
allocated in `.sw5prtc$C`; the image loader merges the grouped sections
`.sw5prtc$A`, `.sw5prtc$B`, `.sw5prtc$C` in suffix order, so the start
sentinel occupies bytes `[startAddr, startAddr + w)`, real contributions
(emitted into `.sw5prtc$B`) occupy `[startAddr + w, startAddr + w +
contribBytes)`, and the stop sentinel begins right after. `w` is
`sizeof(uintptr_t)` on the target. -/
structure CoffSectionLayout where
  w : Nat
  startAddr : Nat
  contribBytes : Nat
deriving Repr, DecidableEq

/-- Address of the first byte of the real contributions in the merged
COFF section: immediately after the `w`-byte start sentinel word. -/
def CoffSectionLayout.contribAddr (L : CoffSectionLayout) : Nat :=
  L.startAddr + L.w

/-- Address of the `__stop_sw5prtc` sentinel: after the start word and
all contributed bytes. -/
def CoffSectionLayout.stopAddr (L : CoffSectionLayout) : Nat :=
  L.startAddr + L.w + L.contribBytes

/-- COFF `loadImages` run on a laid-out section. -/
def coff_loadImagesOn (L : CoffSectionLayout) : Delivery :=
  coff_loadImages L.w L.startAddr L.stopAddr

theorem elf_loadImagesOn_len (L : ElfSectionLayout) :
    (elf_loadImagesOn L).len = L.contribBytes := by
  simp [elf_loadImagesOn, elf_loadImages, ptrSub, ElfSectionLayout.stopAddr]

theorem coff_loadImagesOn_len (L : CoffSectionLayout) :
    (coff_loadImagesOn L).len = (L.w + L.contribBytes) / L.w := by
  have h : L.startAddr + L.w + L.contribBytes - L.startAddr
      = L.w + L.contribBytes := by omega
  simp [coff_loadImagesOn, coff_loadImages, ptrSub, CoffSectionLayout.stopAddr, h]

/-- Semantics of a C call through a function reference: the reference is
`some f` (a bound function, identified here by a numeric id) or `none`
(null). Calling a null function reference is undefined behavior; the
call sites in `ImageInspection.c` contain no null test, so the outcome
is decided entirely by this call semantics. -/
def callCallback (cb : Option Nat) (d : Delivery) : CResult (Nat × Delivery) :=
  match cb with
  | some f => .ok (f, d)
  | none => .ub

/-- ELF `loadImages` with the process-wide registration-callback
reference made explicit: the body calls `registerProtocolConformances`
unconditionally on the computed bounds — no null check appears in the
code, so a null reference reaches the call itself. -/
def elf_loadImagesCb (cb : Option Nat) (start stop : Nat) :
    CResult (Nat × Delivery) :=
  callCallback cb (elf_loadImages start stop)

/-- A Mach-O section: its fixed name, load address and byte size, as
recorded in the image's load commands. -/
structure MachSection where
  sectname : String
  addr : Nat
  size : Nat
deriving Repr, DecidableEq

/-- A Mach-O segment: its fixed name and the sections it contains. -/
structure MachSegment where
  segname : String
  sections : List MachSection
deriving Repr, DecidableEq

/-- A Mach-O image as seen from its `mach_header`: its segments in file
order. -/
structure MachImage where
  segments : List MachSegment
deriving Repr, DecidableEq

/-- Modelled from the spec: `lookupSection` (declared `extern` in
`ImageInspection.h`, implemented outside this repository) searches the
module's segments for the given segment name, then that segment's
sections for the given section name, and hands the first match's address
and byte length to the registration function; when nothing matches it
makes no call. -/
def lookupSection (img : MachImage) (segment sect : String) :
    Option Delivery :=
  match img.segments.find? (fun s => s.segname == segment) with
  | none => none
  | some seg =>
      (seg.sections.find? (fun s => s.sectname == sect)).map
        (fun s => ⟨s.addr, s.size⟩)

/-- Mach-O `_loadImageCallback`: for the image just announced by dyld,
look up segment `__TEXT`, section `__swift5_proto`, delivering the match
(if any) to `registerProtocolConformances`. -/
def machO_loadImageCallback (img : MachImage) : Option Delivery :=
  lookupSection img "__TEXT" "__swift5_proto"

/-- Events observable by the dyld model: `register` is one invocation of
the Mach-O `loadImages` body (`_dyld_register_func_for_add_image
(_loadImageCallback)`); `load m` is dyld mapping a new image with id
`m` into the process. -/
inductive DyldEvent where
  | register : DyldEvent
  | load : Nat → DyldEvent
deriving Repr, DecidableEq

/-- State of the dyld model: the ids of the images currently mapped (in
load order), the number of times `_loadImageCallback` has been
registered via `_dyld_register_func_for_add_image`, and the ids of the
images for which `_loadImageCallback` has fired so far, in order (one
list entry per firing). -/
structure DyldState where
  loaded : List Nat
  regCount : Nat
  fired : List Nat
deriving Repr, DecidableEq

/-- Modelled from the spec (documented dyld behavior, external to this
repository): `_dyld_register_func_for_add_image` invokes the newly
registered callback once for every image already mapped, and afterwards
every registered callback fires once for each newly mapped image — a
callback registered n times fires n times per image. -/
def dyldStep (s : DyldState) : DyldEvent → DyldState
  | .register =>
      ⟨s.loaded, s.regCount + 1, s.fired ++ s.loaded⟩
  | .load m =>
      ⟨s.loaded ++ [m], s.regCount, s.fired ++ List.replicate s.regCount m⟩

/-- Run the dyld model over a list of events. -/
def dyldRun (s : DyldState) (es : List DyldEvent) : DyldState :=
  es.foldl dyldStep s

/-- Initial dyld state: the images mapped before this code's own
initialization runs, no registration yet, no callback firings yet. -/
def dyldInit (preLoaded : List Nat) : DyldState :=
  ⟨preLoaded, 0, []⟩

theorem dyldRun_loads (ld f : List Nat) (L : List Nat) :
    dyldRun ⟨ld, 1, f⟩ (L.map DyldEvent.load) = ⟨ld ++ L, 1, f ++ L⟩ := by
  induction L generalizing ld f with
  | nil => simp [dyldRun]
  | cons m L ih =>
      simp only [List.map_cons, dyldRun, List.foldl_cons, dyldStep]
      have h := ih (ld ++ [m]) (f ++ List.replicate 1 m)
      simp [dyldRun] at h
      simp [h]

/-- Process memory as a byte map from addresses to byte values. -/
def Mem : Type := Nat → Nat

/-- ELF `loadImages` with the process memory made explicit: the body
takes the addresses of the two boundary symbols and subtracts them —
pure address arithmetic; it contains no store expression, so the memory
passes through unchanged alongside the delivered bounds. -/
def elf_loadImagesMem (mem : Mem) (start stop : Nat) : Mem × Delivery :=
  (mem, elf_loadImages start stop)

/-- COFF `loadImages` with the process memory made explicit: same shape
as the ELF body (address-of, pointer subtraction, one call); no store
expression occurs. -/
def coff_loadImagesMem (mem : Mem) (w start stop : Nat) : Mem × Delivery :=
  (mem, coff_loadImages w start stop)

/-- Mach-O `_loadImageCallback` with the process memory made explicit:
the body only calls `lookupSection`, which reads the image's load
commands and performs no store. -/
def machO_loadImageCallbackMem (mem : Mem) (img : MachImage) :
    Mem × Option Delivery :=
  (mem, machO_loadImageCallback img)

/-- The pointer-authentication keys of the arm64e ABI; `Ptrauth.c` uses
the fixed data key `asda` only. -/
inductive PtrauthKey where
  | asia : PtrauthKey
  | asib : PtrauthKey
  | asda : PtrauthKey
  | asdb : PtrauthKey
deriving Repr, DecidableEq

/-- Modelled from the spec (compiler intrinsic, external to this
repository): on arm64e `ptrauth_strip(pointer, key)` clears the
signature bits — the bits above the `addrBits` low bits that form the
virtual address — and leaves the address bits untouched; the key selects
which signing schema the value used but does not change the strip
result, and no memory is accessed. -/
def ptrauth_strip (addrBits : Nat) (_key : PtrauthKey) (p : Nat) : Nat :=
  p % 2 ^ addrBits

/-- The arm64e body of `Ptrauth.c`: `return ptrauth_strip(pointer,
ptrauth_key_asda);` — one intrinsic call with the fixed data key. -/
def ptrauth_strip_asda (addrBits : Nat) (p : Nat) : Nat :=
  ptrauth_strip addrBits PtrauthKey.asda p

/-- Modelled from the spec: on architectures without the
pointer-authentication feature the strip operation is the identity
(`Ptrauth.h` compiles `__ptrauth_strip_asda` only under `__arm64e__`;
elsewhere there is no signature to remove and callers use the pointer
value directly). -/
def strip_noPtrauth (p : Nat) : Nat := p

/-- A record of the user-account database, reduced to the field
`shell.c` reads. -/
structure Passwd where
  pw_shell : String
deriving Repr, DecidableEq

/-- Model of `getpwuid`: the user-account database is a partial map from
uid to record; the C function returns a pointer to the matching record,
or a null pointer (`none`) when no record matches. -/
def getpwuid (db : Nat → Option Passwd) (uid : Nat) : Option Passwd :=
  db uid

/-- Semantics of the C member access `p->pw_shell` on a possibly-null
`struct passwd *`: dereferencing null is undefined behavior. -/
def derefPwShell (p : Option Passwd) : CResult String :=
  match p with
  | some entry => .ok entry.pw_shell
  | none => .ub

/-- The function `shellPath` from `shell.c`:
`return getpwuid(geteuid())->pw_shell;` — the lookup result is
dereferenced unconditionally, with no null test and no error path. The
effective uid is a parameter (the value `geteuid()` returns). -/
def shellPath (db : Nat → Option Passwd) (euid : Nat) : CResult String :=
  derefPwShell (getpwuid db euid)

/-- Helper: a run consisting of one `register` event followed by the
later image loads fires the callback once per pre-mapped image (at
registration time) and once per later image (at its load), in order. -/
theorem dyldRun_register_then_loads (pre L : List Nat) :
    dyldRun (dyldInit pre) (DyldEvent.register :: L.map DyldEvent.load)
      = ⟨pre ++ L, 1, pre ++ L⟩ := by
  have h1 : dyldStep (dyldInit pre) DyldEvent.register = ⟨pre, 1, pre⟩ := by
    simp [dyldInit, dyldStep]
  have h2 := dyldRun_loads pre pre L
  simp only [dyldRun, List.foldl_cons] at *
  rw [h1]
  exact h2

/-- Helper: each `register` event increments the registration count by
one; `n` invocations of the Mach-O `loadImages` body produce `n`
registrations of `_loadImageCallback` with dyld. -/
theorem dyldRun_replicate_register_regCount (s : DyldState) (n : Nat) :
    (dyldRun s (List.replicate n DyldEvent.register)).regCount
      = s.regCount + n := by
  induction n generalizing s with
  | zero => simp [dyldRun]
  | succ k ih =>
      simp only [List.replicate_succ, dyldRun, List.foldl_cons, dyldStep]
      have h := ih ⟨s.loaded, s.regCount + 1, s.fired ++ s.loaded⟩
      simp [dyldRun] at h
      simp [dyldRun, h]
      omega

/-- Claim C1, counterexample: in the COFF variant, a module whose named
section holds one 16-byte contributing record (with 8-byte pointers, so
the stop sentinel sits 8 + 16 bytes after the start sentinel) delivers
the value 3 — the `uintptr_t*` difference `(8 + 16) / 8` — to
`registerProtocolConformances`, not 16. -/
theorem coff_sixteen_byte_record_delivers_three :
    (coff_loadImagesOn ⟨8, 4096, 16⟩).len = 3
      ∧ ¬ ((coff_loadImagesOn ⟨8, 4096, 16⟩).len = 16) := by
  constructor <;> decide

/-- Claim C1, amended: for the ELF boundary-symbol variant the length
delivered to `registerProtocolConformances` equals the section's N
contribution bytes exactly (the boundary symbols are `const char`, so
the subtraction is a byte count, and the `aligned(1)` empty-section
declaration adds no padding and no sentinel data). For the COFF variant
the sentinels are `uintptr_t` objects, so `&__stop - &__start` is a
pointer difference in `sizeof(uintptr_t)` units spanning the start
sentinel word as well: the delivered value is
`(sizeof(uintptr_t) + N) / sizeof(uintptr_t)`, and a 16-byte record
with 8-byte pointers yields 3, not 16. -/
theorem boundary_symbol_delivered_lengths
    (Le : ElfSectionLayout) (Lc : CoffSectionLayout) (hw : Lc.w = 8) :
    (elf_loadImagesOn Le).len = Le.contribBytes
      ∧ (coff_loadImagesOn Lc).len = (8 + Lc.contribBytes) / 8 := by
  refine ⟨elf_loadImagesOn_len Le, ?_⟩
  rw [coff_loadImagesOn_len, hw]

/-- Witness for `boundary_symbol_delivered_lengths` at a concrete
layout: 16 ELF contribution bytes deliver 16; 16 COFF contribution bytes
deliver (8 + 16) / 8 = 3. -/
theorem boundary_symbol_delivered_lengths_witness :
    (elf_loadImagesOn ⟨4096, 16⟩).len = 16
      ∧ (coff_loadImagesOn ⟨8, 4096, 16⟩).len = (8 + 16) / 8 :=
  boundary_symbol_delivered_lengths ⟨4096, 16⟩ ⟨8, 4096, 16⟩ rfl

/-- Claim C2, counterexample: invoking `loadImages` twice in a process
with one pre-mapped module (id 7) registers `_loadImageCallback` with
dyld twice, not once, and the module receives two callback deliveries,
not one — the body has no idempotence latch. -/
theorem double_loadImages_registers_twice :
    ¬ ((dyldRun (dyldInit [7])
        [DyldEvent.register, DyldEvent.register]).regCount = 1)
      ∧ (dyldRun (dyldInit [7])
          [DyldEvent.register, DyldEvent.register]).regCount = 2
      ∧ (dyldRun (dyldInit [7])
          [DyldEvent.register, DyldEvent.register]).fired = [7, 7] := by
  refine ⟨?_, ?_, ?_⟩ <;> decide

/-- Claim C2, amended: each invocation of the Mach-O `loadImages` body
performs one registration of `_loadImageCallback` with dyld — `n`
invocations produce `n` registrations, and every pre-mapped module is
re-scanned on each one. The code contains no already-initialized latch;
exactly one registration occurs in a real process only because the
`__attribute__((__constructor__))` mechanism invokes `loadImages`
exactly once, at image load. -/
theorem loadImages_registration_count (pre : List Nat) (n : Nat) :
    (dyldRun (dyldInit pre)
        (List.replicate n DyldEvent.register)).regCount = n := by
  have h := dyldRun_replicate_register_regCount (dyldInit pre) n
  simpa [dyldInit] using h

/-- Claim C3, counterexample: with the registration-callback reference
null, the ELF `loadImages` body still reaches the call — the outcome at
the concrete bounds (4096, 4096) is undefined behavior, not a silent
"nothing to deliver" no-op. -/
theorem null_callback_is_undefined_behavior :
    elf_loadImagesCb none 4096 4096 = CResult.ub := by
  decide

/-- Claim C3, amended: the hook performs no null test on
`registerProtocolConformances` — it is an `extern` function bound at
link time, so it cannot be null in a successfully linked program; with
a non-null reference the bounds are always delivered, and were the
reference null the unconditional call itself would be undefined
behavior rather than a no-op. -/
theorem elf_hook_callback_dispatch (start stop : Nat) :
    elf_loadImagesCb none start stop = CResult.ub
      ∧ ∀ f, elf_loadImagesCb (some f) start stop
          = CResult.ok (f, elf_loadImages start stop) := by
  exact ⟨rfl, fun _ => rfl⟩

/-- Claim C4: under the Mach-O loader-callback variant, when
`loadImages` runs once (as the constructor mechanism arranges) before
the later loads, every module — pre-mapped or loaded afterwards — has
`_loadImageCallback` fire for it exactly once, provided the loader
announces each module at most once. -/
theorem machO_callback_fires_once_per_module
    (pre L : List Nat) (m : Nat) (hnd : (pre ++ L).Nodup)
    (hm : m ∈ pre ++ L) :
    ((dyldRun (dyldInit pre)
        (DyldEvent.register :: L.map DyldEvent.load)).fired.count m) = 1 := by
  rw [dyldRun_register_then_loads]
  exact List.count_eq_one_of_mem hnd hm

/-- Witness for `machO_callback_fires_once_per_module`: with module 1
pre-mapped and modules 2, 3 loaded after registration, module 3 receives
exactly one callback firing. -/
theorem machO_callback_fires_once_per_module_witness :
    ((dyldRun (dyldInit [1])
        (DyldEvent.register :: [2, 3].map DyldEvent.load)).fired.count 3)
      = 1 :=
  machO_callback_fires_once_per_module [1] [2, 3] 3 (by decide) (by decide)

/-- Claim C5: the ELF variant delivers length `stop − start` (the byte
difference of the two linker boundary symbols); on a section with N
contribution bytes that is exactly N, and when no translation unit
contributes (N = 0, so the two symbols coincide) the delivery still
takes place, with length exactly 0 and the memory untouched — nothing
is dereferenced. -/
theorem elf_length_is_stop_minus_start (start stop n : Nat) (mem : Mem) :
    (elf_loadImages start stop).len = stop - start
      ∧ (elf_loadImagesOn ⟨start, n⟩).len = n
      ∧ elf_loadImagesMem mem start start = (mem, ⟨start, 0⟩) := by
  refine ⟨?_, elf_loadImagesOn_len ⟨start, n⟩, ?_⟩
  · simp [elf_loadImages, ptrSub]
  · simp [elf_loadImagesMem, elf_loadImages, ptrSub]

/-- Claim C6: on architectures without pointer authentication the strip
operation is the identity; on arm64e, `__ptrauth_strip_asda` is the
single `ptrauth_strip` intrinsic with the fixed data key `asda`, and
for every input bit pattern it clears the signature bits (the result
fits in the address bits) while leaving the address bits untouched —
it is total and touches no memory. -/
theorem strip_asda_clears_signature_keeps_address (addrBits p : Nat) :
    strip_noPtrauth p = p
      ∧ ptrauth_strip_asda addrBits p
          = ptrauth_strip addrBits PtrauthKey.asda p
      ∧ ptrauth_strip_asda addrBits p % 2 ^ addrBits = p % 2 ^ addrBits
      ∧ ptrauth_strip_asda addrBits p < 2 ^ addrBits := by
  refine ⟨rfl, rfl, ?_, ?_⟩
  · simp [ptrauth_strip_asda, ptrauth_strip, Nat.mod_mod_of_dvd]
  · exact Nat.mod_lt _ (Nat.pos_pow_of_pos _ (by omega))

/-- Claim C7: none of the three variants writes to the scanned memory:
with the process memory made explicit, the ELF and COFF `loadImages`
bodies and the Mach-O `_loadImageCallback` body leave every byte
unchanged — discovery is pure address arithmetic over a read-only
range, with no allocation or free. -/
theorem image_inspection_leaves_memory_unchanged
    (mem : Mem) (w start stop : Nat) (img : MachImage) :
    (elf_loadImagesMem mem start stop).1 = mem
      ∧ (coff_loadImagesMem mem w start stop).1 = mem
      ∧ (machO_loadImageCallbackMem mem img).1 = mem :=
  ⟨rfl, rfl, rfl⟩

/-- Claim C8: `shellPath` dereferences `getpwuid(geteuid())`
unconditionally: when the user-account database holds a record for the
effective uid the result is that record's `pw_shell`, and when the
lookup returns a null pointer the dereference is undefined behavior —
there is no error-return path. -/
theorem shellPath_requires_lookup_success (db : Nat → Option Passwd)
    (euid : Nat) :
    (∀ e, db euid = some e → shellPath db euid = CResult.ok e.pw_shell)
      ∧ (db euid = none → shellPath db euid = CResult.ub) := by
  constructor
  · intro e he
    simp [shellPath, derefPwShell, getpwuid, he]
  · intro he
    simp [shellPath, derefPwShell, getpwuid, he]

/-- Witness for `shellPath_requires_lookup_success` on a concrete
database mapping uid 0 to shell `/bin/sh` and no other uid: uid 0
succeeds with `/bin/sh`, uid 1 hits the null dereference. -/
theorem shellPath_requires_lookup_success_witness :
    shellPath (fun u => if u = 0 then some ⟨"/bin/sh"⟩ else none) 0
        = CResult.ok "/bin/sh"
      ∧ shellPath (fun u => if u = 0 then some ⟨"/bin/sh"⟩ else none) 1
        = CResult.ub :=
  ⟨(shellPath_requires_lookup_success
      (fun u => if u = 0 then some ⟨"/bin/sh"⟩ else none) 0).1
        ⟨"/bin/sh"⟩ rfl,
   (shellPath_requires_lookup_success
      (fun u => if u = 0 then some ⟨"/bin/sh"⟩ else none) 1).2 rfl⟩

/-- Claim C9: the COFF variant delivers as base address the address of
the synthetic zero-initialized `__start_sw5prtc` sentinel word itself
(the `.sw5prtc$A` object), not the address of the first real
contribution: the contributions begin `sizeof(uintptr_t)` bytes after
the delivered base, so (pointer size being positive) the delivered base
differs from the first contribution's address. -/
theorem coff_base_is_start_sentinel (L : CoffSectionLayout) (hw : 0 < L.w) :
    (coff_loadImagesOn L).base = L.startAddr
      ∧ L.contribAddr = (coff_loadImagesOn L).base + L.w
      ∧ (coff_loadImagesOn L).base ≠ L.contribAddr := by
  refine ⟨rfl, rfl, ?_⟩
  simp only [coff_loadImagesOn, coff_loadImages, CoffSectionLayout.contribAddr]
  omega

/-- Witness for `coff_base_is_start_sentinel` at a concrete layout with
8-byte pointers: delivered base 4096 is the sentinel's address and the
contributions start at 4104. -/
theorem coff_base_is_start_sentinel_witness :
    (coff_loadImagesOn ⟨8, 4096, 16⟩).base = 4096
      ∧ CoffSectionLayout.contribAddr ⟨8, 4096, 16⟩
          = (coff_loadImagesOn ⟨8, 4096, 16⟩).base + 8
      ∧ (coff_loadImagesOn ⟨8, 4096, 16⟩).base
          ≠ CoffSectionLayout.contribAddr ⟨8, 4096, 16⟩ :=
  coff_base_is_start_sentinel ⟨8, 4096, 16⟩ (by decide)

/-- Claim C10: stripping is idempotent on every supported architecture:
a second application of `__ptrauth_strip_asda` (arm64e) or of the
identity fallback (all other targets) returns its input unchanged. -/
theorem strip_asda_idempotent (addrBits p : Nat) :
    ptrauth_strip_asda addrBits (ptrauth_strip_asda addrBits p)
        = ptrauth_strip_asda addrBits p
      ∧ strip_noPtrauth (strip_noPtrauth p) = strip_noPtrauth p := by
  constructor
  · simp [ptrauth_strip_asda, ptrauth_strip, Nat.mod_mod_of_dvd]
  · rfl
